import Mathlib

/-!
# ActionLed: the action-indicator state machine of `beeper/arduino/src/action_led.h`

A shallow embedding of the class template `ActionLed<port_addr, pin_nr>` and a
verification of its state machine.  The two collaborators of the class, the
output pin (`io_pins.h`) and the passive timer (`passive_timer.h`), are
declared outside the file that is embedded here; they are modelled from their
documented interface.  The system clock is explicit: every call of `loop()`
receives the clock reading `now` at which it runs.
-/

set_option autoImplicit false

/-- Modelled from the spec: the digital output line `io_pins::OutputPin` of
`io_pins.h`, of which the class only uses `setup()`, `high()` and `low()`.
`configured` records that `setup()` ran, `level` is the driven level
(`true` is HIGH; the pin is active high, so HIGH is "LED on"). -/
structure OutputPin where
  configured : Bool
  level : Bool
  deriving DecidableEq, Repr

namespace OutputPin

/-- One-time hardware initialisation of the line. -/
def setup (p : OutputPin) : OutputPin := { p with configured := true }

/-- Drive the line HIGH. -/
def high (p : OutputPin) : OutputPin := { p with level := true }

/-- Drive the line LOW. -/
def low (p : OutputPin) : OutputPin := { p with level := false }

end OutputPin

/-- Modelled from the spec: the elapsed-time tracker `PassiveTimer` of
`passive_timer.h`.  It keeps the reference point set by the last `restart()`;
`timeMillis()` is the time elapsed since then, a non-negative integer. -/
structure PassiveTimer where
  start_time_millis_ : Nat
  deriving DecidableEq, Repr

namespace PassiveTimer

/-- Reset the reference point to the current clock reading. -/
def restart (_t : PassiveTimer) (now : Nat) : PassiveTimer := ⟨now⟩

/-- Milliseconds elapsed since the last restart, at clock reading `now`. -/
def timeMillis (t : PassiveTimer) (now : Nat) : Nat := now - t.start_time_millis_

end PassiveTimer

/-- The data members of `ActionLed`: `state_` is the `uint8_t` state tag,
`led_` the pin, `timer_` the timer of the ON and OFF periods and
`pending_actions_` the flag "a new action arrived". -/
structure ActionLed where
  state_ : Nat
  led_ : OutputPin
  timer_ : PassiveTimer
  pending_actions_ : Bool
  deriving DecidableEq, Repr

namespace ActionLed

/-- No pending actions; the LED can be turned on as soon as an action arrives. -/
abbrev kState_IDLE : Nat := 1

/-- LED is pulsed on. -/
abbrev kState_ACTIVE_ON : Nat := 2

/-- LED was pulsed on and is in the blackout period. -/
abbrev kState_ACTIVE_OFF : Nat := 3

/-- Body of `enterIdleState()`: tag IDLE, pin low (the timer is not touched). -/
def enterIdleState (s : ActionLed) : ActionLed :=
  { s with state_ := kState_IDLE, led_ := s.led_.low }

/-- Body of `enterActiveOnState()`: tag ACTIVE_ON, pin high, timer restarted. -/
def enterActiveOnState (s : ActionLed) (now : Nat) : ActionLed :=
  { s with state_ := kState_ACTIVE_ON, led_ := s.led_.high,
           timer_ := s.timer_.restart now }

/-- Body of `enterActiveOffState()`: tag ACTIVE_OFF, pin low, timer restarted. -/
def enterActiveOffState (s : ActionLed) (now : Nat) : ActionLed :=
  { s with state_ := kState_ACTIVE_OFF, led_ := s.led_.low,
           timer_ := s.timer_.restart now }

/-- The constructor `ActionLed()`.  `led0` and `timer0` are the members as
their own default constructors leave them; the constructor sets
`pending_actions_` to false, calls `led_.setup()` and enters IDLE.  The
member `state_` has no initialiser: `enterIdleState()` gives it its first
value, overwriting the 0 that stands for the indeterminate one. -/
def ctor (led0 : OutputPin) (timer0 : PassiveTimer) : ActionLed :=
  enterIdleState
    { state_ := 0, led_ := led0.setup, timer_ := timer0, pending_actions_ := false }

/-- The method `loop()`, run at clock reading `now`: the `switch` on `state_`
with its three cases; a tag outside the three cases falls through. -/
def loop (s : ActionLed) (now : Nat) : ActionLed :=
  if s.state_ = kState_IDLE then
    if s.pending_actions_ then
      { enterActiveOnState s now with pending_actions_ := false }
    else s
  else if s.state_ = kState_ACTIVE_ON then
    if 20 < s.timer_.timeMillis now then enterActiveOffState s now else s
  else if s.state_ = kState_ACTIVE_OFF then
    if 30 < s.timer_.timeMillis now then enterIdleState s else s
  else s

/-- The method `action()`. -/
def action (s : ActionLed) : ActionLed := { s with pending_actions_ := true }

/-- A call made by the main loop on the object: `action()`, or `loop()` at a
given clock reading. -/
inductive Call where
  | action : Call
  | loop (now : Nat) : Call
  deriving DecidableEq, Repr

/-- Effect of one call. -/
def step (s : ActionLed) : Call → ActionLed
  | Call.action => s.action
  | Call.loop now => s.loop now

/-- Effect of a finite sequence of calls, first call first. -/
def run (s : ActionLed) (cs : List Call) : ActionLed := cs.foldl step s

/-- Effect of a sequence of `loop()` calls made at the given clock readings. -/
def runLoops (s : ActionLed) (ts : List Nat) : ActionLed := ts.foldl loop s

/-- The states seen while polling: the start state, then the state after each
`loop()` call. -/
def loopTrace (s : ActionLed) : List Nat → List ActionLed
  | [] => [s]
  | t :: ts => s :: loopTrace (s.loop t) ts

/-- The LED levels along a polling trace. -/
def ledHistory (s : ActionLed) (ts : List Nat) : List Bool :=
  (loopTrace s ts).map fun x => x.led_.level

/-- The state tags along a polling trace. -/
def tagHistory (s : ActionLed) (ts : List Nat) : List Nat :=
  (loopTrace s ts).map fun x => x.state_

/-- Number of LOW-to-HIGH changes in a history of levels. -/
def risingEdges : List Bool → Nat
  | a :: b :: rest => (if a = false ∧ b = true then 1 else 0) + risingEdges (b :: rest)
  | _ => 0

/-- The clock reading of a call is below `bound`; `action()` reads no clock. -/
def Call.before (bound : Nat) : Call → Bool
  | Call.action => true
  | Call.loop now => decide (now < bound)

/-- The clock readings of the `loop()` calls in a sequence of calls, in order. -/
def clockTimes : List Call → List Nat
  | [] => []
  | Call.action :: cs => clockTimes cs
  | Call.loop now :: cs => now :: clockTimes cs

/-- The timer test that `loop()` makes in the case of the current tag comes
out true at clock reading `now`: above 20 in ACTIVE_ON, above 30 in
ACTIVE_OFF; the IDLE case makes no timer test. -/
def thresholdPassed (s : ActionLed) (now : Nat) : Bool :=
  if s.state_ = kState_ACTIVE_ON then decide (20 < s.timer_.timeMillis now)
  else if s.state_ = kState_ACTIVE_OFF then decide (30 < s.timer_.timeMillis now)
  else true

/-! ## Basic facts about the single operations -/

theorem run_nil (s : ActionLed) : run s [] = s := rfl

theorem run_cons (s : ActionLed) (c : Call) (cs : List Call) :
    run s (c :: cs) = run (step s c) cs := rfl

theorem run_append (s : ActionLed) (cs ds : List Call) :
    run s (cs ++ ds) = run (run s cs) ds := by
  simp [run, List.foldl_append]

theorem runLoops_nil (s : ActionLed) : runLoops s [] = s := rfl

theorem runLoops_cons (s : ActionLed) (t : Nat) (ts : List Nat) :
    runLoops s (t :: ts) = runLoops (s.loop t) ts := rfl

theorem runLoops_append (s : ActionLed) (ts us : List Nat) :
    runLoops s (ts ++ us) = runLoops (runLoops s ts) us := by
  simp [runLoops, List.foldl_append]

/-- IDLE with an action pending: `loop()` enters ACTIVE_ON and clears the flag. -/
theorem loop_idle_of_pending (s : ActionLed) (now : Nat)
    (hs : s.state_ = kState_IDLE) (hp : s.pending_actions_ = true) :
    s.loop now = { enterActiveOnState s now with pending_actions_ := false } := by
  simp [loop, hs, hp]

/-- IDLE with nothing pending: `loop()` does nothing. -/
theorem loop_idle_of_not_pending (s : ActionLed) (now : Nat)
    (hs : s.state_ = kState_IDLE) (hp : s.pending_actions_ = false) :
    s.loop now = s := by
  simp [loop, hs, hp]

/-- ACTIVE_ON with the timer above 20: `loop()` enters ACTIVE_OFF. -/
theorem loop_on_of_gt (s : ActionLed) (now : Nat)
    (hs : s.state_ = kState_ACTIVE_ON) (ht : 20 < s.timer_.timeMillis now) :
    s.loop now = enterActiveOffState s now := by
  simp [loop, hs, ht]

/-- ACTIVE_ON with the timer at most 20: `loop()` does nothing. -/
theorem loop_on_of_le (s : ActionLed) (now : Nat)
    (hs : s.state_ = kState_ACTIVE_ON) (ht : s.timer_.timeMillis now ≤ 20) :
    s.loop now = s := by
  simp [loop, hs, Nat.not_lt.mpr ht]

/-- ACTIVE_OFF with the timer above 30: `loop()` enters IDLE. -/
theorem loop_off_of_gt (s : ActionLed) (now : Nat)
    (hs : s.state_ = kState_ACTIVE_OFF) (ht : 30 < s.timer_.timeMillis now) :
    s.loop now = enterIdleState s := by
  simp [loop, hs, ht]

/-- ACTIVE_OFF with the timer at most 30: `loop()` does nothing. -/
theorem loop_off_of_le (s : ActionLed) (now : Nat)
    (hs : s.state_ = kState_ACTIVE_OFF) (ht : s.timer_.timeMillis now ≤ 30) :
    s.loop now = s := by
  simp [loop, hs, Nat.not_lt.mpr ht]

/-- The LED invariant is kept by `loop()`. -/
theorem loop_keeps_led_iff (s : ActionLed) (now : Nat)
    (h : s.led_.level = true ↔ s.state_ = kState_ACTIVE_ON) :
    (s.loop now).led_.level = true ↔ (s.loop now).state_ = kState_ACTIVE_ON := by
  unfold loop
  split_ifs <;>
    simp_all [enterActiveOnState, enterActiveOffState, enterIdleState,
      OutputPin.high, OutputPin.low]

/-- The LED invariant is kept by every call. -/
theorem step_keeps_led_iff (s : ActionLed) (c : Call)
    (h : s.led_.level = true ↔ s.state_ = kState_ACTIVE_ON) :
    (step s c).led_.level = true ↔ (step s c).state_ = kState_ACTIVE_ON := by
  cases c with
  | action => simpa [step, action] using h
  | loop now => exact loop_keeps_led_iff s now h

/-- The LED invariant is kept by every finite sequence of calls. -/
theorem run_keeps_led_iff (cs : List Call) (s : ActionLed)
    (h : s.led_.level = true ↔ s.state_ = kState_ACTIVE_ON) :
    (run s cs).led_.level = true ↔ (run s cs).state_ = kState_ACTIVE_ON := by
  induction cs generalizing s with
  | nil => simpa [run] using h
  | cons c cs ih => rw [run_cons]; exact ih _ (step_keeps_led_iff s c h)

/-- While every poll comes before 20 units after the timer's reference point,
a machine in ACTIVE_ON stays there, with the pin and the timer untouched. -/
theorem run_dwells_on (cs : List Call) (s : ActionLed)
    (hs : s.state_ = kState_ACTIVE_ON)
    (h : ∀ c ∈ cs, Call.before (s.timer_.start_time_millis_ + 20) c = true) :
    (run s cs).state_ = kState_ACTIVE_ON ∧ (run s cs).led_ = s.led_ ∧
      (run s cs).timer_ = s.timer_ := by
  induction cs generalizing s with
  | nil => exact ⟨hs, rfl, rfl⟩
  | cons c cs ih =>
    have hc := h c (List.mem_cons_self c cs)
    have hrest : ∀ d ∈ cs, Call.before (s.timer_.start_time_millis_ + 20) d = true :=
      fun d hd => h d (List.mem_cons_of_mem c hd)
    rw [run_cons]
    cases c with
    | action => exact ih s.action hs hrest
    | loop now =>
      have hle : s.timer_.timeMillis now ≤ 20 := by
        simp only [Call.before, decide_eq_true_eq] at hc
        simp only [PassiveTimer.timeMillis]
        omega
      simp only [step, loop_on_of_le s now hs hle]
      exact ih s hs hrest

/-- While every poll comes before 30 units after the timer's reference point,
a machine in ACTIVE_OFF stays there, with the pin and the timer untouched. -/
theorem run_dwells_off (cs : List Call) (s : ActionLed)
    (hs : s.state_ = kState_ACTIVE_OFF)
    (h : ∀ c ∈ cs, Call.before (s.timer_.start_time_millis_ + 30) c = true) :
    (run s cs).state_ = kState_ACTIVE_OFF ∧ (run s cs).led_ = s.led_ ∧
      (run s cs).timer_ = s.timer_ := by
  induction cs generalizing s with
  | nil => exact ⟨hs, rfl, rfl⟩
  | cons c cs ih =>
    have hc := h c (List.mem_cons_self c cs)
    have hrest : ∀ d ∈ cs, Call.before (s.timer_.start_time_millis_ + 30) d = true :=
      fun d hd => h d (List.mem_cons_of_mem c hd)
    rw [run_cons]
    cases c with
    | action => exact ih s.action hs hrest
    | loop now =>
      have hle : s.timer_.timeMillis now ≤ 30 := by
        simp only [Call.before, decide_eq_true_eq] at hc
        simp only [PassiveTimer.timeMillis]
        omega
      simp only [step, loop_off_of_le s now hs hle]
      exact ih s hs hrest

/-- Calling `action()` twice is calling it once. -/
theorem action_action (s : ActionLed) : s.action.action = s.action := rfl

/-- Calling `action()` one or more times in a row is calling it once. -/
theorem iterate_action_succ (n : Nat) (s : ActionLed) :
    action^[n + 1] s = s.action := by
  induction n with
  | zero => rfl
  | succ n ih => rw [Function.iterate_succ_apply', ih, action_action]

/-- The LED history starts with the level of the start state. -/
theorem ledHistory_nil (s : ActionLed) : ledHistory s [] = [s.led_.level] := rfl

theorem ledHistory_cons (s : ActionLed) (t : Nat) (ts : List Nat) :
    ledHistory s (t :: ts) = s.led_.level :: ledHistory (s.loop t) ts := rfl

theorem tagHistory_nil (s : ActionLed) : tagHistory s [] = [s.state_] := rfl

theorem tagHistory_cons (s : ActionLed) (t : Nat) (ts : List Nat) :
    tagHistory s (t :: ts) = s.state_ :: tagHistory (s.loop t) ts := rfl

/-- Counting rising edges of a level followed by a polling history. -/
theorem risingEdges_cons_ledHistory (a : Bool) (s : ActionLed) (ts : List Nat) :
    risingEdges (a :: ledHistory s ts) =
      (if a = false ∧ s.led_.level = true then 1 else 0) + risingEdges (ledHistory s ts) := by
  cases ts with
  | nil => simp [ledHistory_nil, risingEdges]
  | cons t ts => rw [ledHistory_cons, risingEdges]

/-- `loop()` never sets the pending flag. -/
theorem loop_pending_false (s : ActionLed) (now : Nat)
    (hp : s.pending_actions_ = false) : (s.loop now).pending_actions_ = false := by
  unfold loop
  split_ifs <;> simp_all [enterActiveOffState, enterIdleState]

/-- A `loop()` call that turns the LED from LOW to HIGH consumes a pending
action: the flag was set before the call and is clear after it. -/
theorem loop_rise_consumes (s : ActionLed) (now : Nat)
    (h0 : s.led_.level = false) (h1 : (s.loop now).led_.level = true) :
    s.pending_actions_ = true ∧ (s.loop now).pending_actions_ = false := by
  unfold loop at h1 ⊢
  split_ifs at h1 ⊢ <;>
    simp_all [enterActiveOnState, enterActiveOffState, enterIdleState,
      OutputPin.high, OutputPin.low]

/-- With no action pending, polling never turns the LED from LOW to HIGH. -/
theorem risingEdges_of_not_pending (ts : List Nat) (s : ActionLed)
    (hp : s.pending_actions_ = false) : risingEdges (ledHistory s ts) = 0 := by
  induction ts generalizing s with
  | nil => rfl
  | cons t ts ih =>
    rw [ledHistory_cons, risingEdges_cons_ledHistory, ih _ (loop_pending_false s t hp)]
    have hno : ¬ (s.led_.level = false ∧ (s.loop t).led_.level = true) := by
      rintro ⟨h0, h1⟩
      have := (loop_rise_consumes s t h0 h1).1
      rw [hp] at this
      exact Bool.false_ne_true this
    simp [hno]

/-- Polling alone, with no `action()` in between, turns the LED from LOW to
HIGH at most once. -/
theorem risingEdges_le_one (ts : List Nat) (s : ActionLed) :
    risingEdges (ledHistory s ts) ≤ 1 := by
  induction ts generalizing s with
  | nil => simp [ledHistory_nil, risingEdges]
  | cons t ts ih =>
    rw [ledHistory_cons, risingEdges_cons_ledHistory]
    by_cases hr : s.led_.level = false ∧ (s.loop t).led_.level = true
    · have hp := (loop_rise_consumes s t hr.1 hr.2).2
      rw [risingEdges_of_not_pending ts _ hp]
      simp [hr]
    · have := ih (s.loop t)
      simp only [hr, if_false]
      omega

/-- Polling is running the corresponding `loop()` calls. -/
theorem runLoops_eq_run (ts : List Nat) (s : ActionLed) :
    runLoops s ts = run s (ts.map Call.loop) := by
  induction ts generalizing s with
  | nil => rfl
  | cons t ts ih => rw [runLoops_cons, List.map_cons, run_cons, ih]; rfl

/-- Polling never sets the pending flag. -/
theorem runLoops_pending_false (ts : List Nat) (s : ActionLed)
    (hp : s.pending_actions_ = false) : (runLoops s ts).pending_actions_ = false := by
  induction ts generalizing s with
  | nil => exact hp
  | cons t ts ih => rw [runLoops_cons]; exact ih _ (loop_pending_false s t hp)

/-- An IDLE machine with nothing pending is a fixed point of polling. -/
theorem runLoops_idle_quiet (ts : List Nat) (s : ActionLed)
    (hs : s.state_ = kState_IDLE) (hp : s.pending_actions_ = false) :
    runLoops s ts = s := by
  induction ts with
  | nil => rfl
  | cons t ts ih => rw [runLoops_cons, loop_idle_of_not_pending s t hs hp, ih]

/-- In ACTIVE_OFF, polls at timer readings of at most 30 change nothing. -/
theorem runLoops_off_wait (ts : List Nat) (s : ActionLed)
    (hs : s.state_ = kState_ACTIVE_OFF) (h : ∀ t ∈ ts, s.timer_.timeMillis t ≤ 30) :
    runLoops s ts = s := by
  induction ts with
  | nil => rfl
  | cons t ts ih =>
    rw [runLoops_cons, loop_off_of_le s t hs (h t (List.mem_cons_self t ts))]
    exact ih fun u hu => h u (List.mem_cons_of_mem t hu)

/-- Tags seen while polling an IDLE machine with nothing pending. -/
theorem tagHistory_idle_quiet (ts : List Nat) (s : ActionLed)
    (hs : s.state_ = kState_IDLE) (hp : s.pending_actions_ = false) :
    tagHistory s ts = List.replicate (ts.length + 1) kState_IDLE := by
  induction ts with
  | nil => rw [tagHistory_nil, hs]; rfl
  | cons t ts ih =>
    rw [tagHistory_cons, loop_idle_of_not_pending s t hs hp, ih, hs]
    rfl

/-- Tags seen while polling a machine in ACTIVE_OFF with nothing pending. -/
theorem tagHistory_off_quiet (ts : List Nat) (s : ActionLed)
    (hs : s.state_ = kState_ACTIVE_OFF) (hp : s.pending_actions_ = false) :
    ∃ c d, tagHistory s ts =
      List.replicate (c + 1) kState_ACTIVE_OFF ++ List.replicate d kState_IDLE := by
  induction ts with
  | nil => exact ⟨0, 0, by rw [tagHistory_nil, hs]; rfl⟩
  | cons t ts ih =>
    rw [tagHistory_cons, hs]
    by_cases ht : 30 < s.timer_.timeMillis t
    · rw [loop_off_of_gt s t hs ht, tagHistory_idle_quiet ts (enterIdleState s) rfl hp]
      exact ⟨0, ts.length + 1, rfl⟩
    · rw [loop_off_of_le s t hs (Nat.le_of_not_lt ht)]
      obtain ⟨c, d, h⟩ := ih
      exact ⟨c + 1, d, by rw [h, List.replicate_succ (n := c + 1)]; rfl⟩

/-- Tags seen while polling a machine in ACTIVE_ON with nothing pending:
ACTIVE_ON, then ACTIVE_OFF, then IDLE, and IDLE only after ACTIVE_OFF. -/
theorem tagHistory_on_quiet (ts : List Nat) (s : ActionLed)
    (hs : s.state_ = kState_ACTIVE_ON) (hp : s.pending_actions_ = false) :
    ∃ b c d, tagHistory s ts =
      List.replicate (b + 1) kState_ACTIVE_ON ++ List.replicate c kState_ACTIVE_OFF ++
        List.replicate d kState_IDLE ∧ (c = 0 → d = 0) := by
  induction ts with
  | nil => exact ⟨0, 0, 0, by rw [tagHistory_nil, hs]; rfl, fun _ => rfl⟩
  | cons t ts ih =>
    rw [tagHistory_cons, hs]
    by_cases ht : 20 < s.timer_.timeMillis t
    · rw [loop_on_of_gt s t hs ht]
      obtain ⟨c, d, h⟩ := tagHistory_off_quiet ts (enterActiveOffState s t) rfl hp
      exact ⟨0, c + 1, d, by rw [h]; rfl, fun h0 => absurd h0 (Nat.succ_ne_zero c)⟩
    · rw [loop_on_of_le s t hs (Nat.le_of_not_lt ht)]
      obtain ⟨b, c, d, h, hcd⟩ := ih
      exact ⟨b + 1, c, d, by rw [h, List.replicate_succ (n := b + 1)]; rfl, hcd⟩

/-- A tag outside the three cases of the `switch`: `loop()` does nothing. -/
theorem loop_of_other_tag (s : ActionLed) (now : Nat)
    (h1 : s.state_ ≠ kState_IDLE) (h2 : s.state_ ≠ kState_ACTIVE_ON)
    (h3 : s.state_ ≠ kState_ACTIVE_OFF) : s.loop now = s := by
  simp [loop, h1, h2, h3]

/-- With nothing pending, a second `loop()` at the same clock reading does
nothing more than the first. -/
theorem loop_loop_same_clock (s : ActionLed) (now : Nat)
    (hp : s.pending_actions_ = false) : (s.loop now).loop now = s.loop now := by
  by_cases h1 : s.state_ = kState_IDLE
  · rw [loop_idle_of_not_pending s now h1 hp, loop_idle_of_not_pending s now h1 hp]
  by_cases h2 : s.state_ = kState_ACTIVE_ON
  · by_cases ht : 20 < s.timer_.timeMillis now
    · rw [loop_on_of_gt s now h2 ht]
      exact loop_off_of_le _ now rfl (by simp [enterActiveOffState, PassiveTimer.restart,
        PassiveTimer.timeMillis])
    · rw [loop_on_of_le s now h2 (Nat.le_of_not_lt ht), loop_on_of_le s now h2
        (Nat.le_of_not_lt ht)]
  by_cases h3 : s.state_ = kState_ACTIVE_OFF
  · by_cases ht : 30 < s.timer_.timeMillis now
    · rw [loop_off_of_gt s now h3 ht]
      exact loop_idle_of_not_pending _ now rfl hp
    · rw [loop_off_of_le s now h3 (Nat.le_of_not_lt ht), loop_off_of_le s now h3
        (Nat.le_of_not_lt ht)]
  · rw [loop_of_other_tag s now h1 h2 h3, loop_of_other_tag s now h1 h2 h3]

theorem clockTimes_append (cs ds : List Call) :
    clockTimes (cs ++ ds) = clockTimes cs ++ clockTimes ds := by
  induction cs with
  | nil => rfl
  | cons c cs ih =>
    cases c with
    | action => simpa [clockTimes] using ih
    | loop now => simp [clockTimes, ih]

/-- From ACTIVE_OFF, a run of calls either leaves the machine in ACTIVE_OFF
with the timer untouched, or contains a poll later than 30 units after the
timer's reference point. -/
theorem run_off_or_late (cs : List Call) (s : ActionLed)
    (hs : s.state_ = kState_ACTIVE_OFF) :
    ((run s cs).state_ = kState_ACTIVE_OFF ∧ (run s cs).timer_ = s.timer_) ∨
      ∃ t ∈ clockTimes cs, s.timer_.start_time_millis_ + 30 < t := by
  induction cs generalizing s with
  | nil => exact Or.inl ⟨hs, rfl⟩
  | cons c cs ih =>
    rw [run_cons]
    cases c with
    | action =>
      rcases ih s.action hs with h | ⟨t, ht, hlt⟩
      · exact Or.inl h
      · exact Or.inr ⟨t, ht, hlt⟩
    | loop now =>
      by_cases hgt : 30 < s.timer_.timeMillis now
      · refine Or.inr ⟨now, List.mem_cons_self now _, ?_⟩
        simp only [PassiveTimer.timeMillis] at hgt
        omega
      · simp only [step, loop_off_of_le s now hs (Nat.le_of_not_lt hgt)]
        rcases ih s hs with h | ⟨t, ht, hlt⟩
        · exact Or.inl h
        · exact Or.inr ⟨t, List.mem_cons_of_mem now ht, hlt⟩

/-- When the LED is HIGH exactly in ACTIVE_ON, a `loop()` call that turns it
from HIGH to LOW enters ACTIVE_OFF and restarts the timer at that instant. -/
theorem loop_fall_enters_off (s : ActionLed) (now : Nat)
    (hinv : s.led_.level = true ↔ s.state_ = kState_ACTIVE_ON)
    (h1 : s.led_.level = true) (h0 : (s.loop now).led_.level = false) :
    (s.loop now).state_ = kState_ACTIVE_OFF ∧
      (s.loop now).timer_.start_time_millis_ = now := by
  have hs := hinv.mp h1
  by_cases ht : 20 < s.timer_.timeMillis now
  · rw [loop_on_of_gt s now hs ht]
    exact ⟨rfl, rfl⟩
  · rw [loop_on_of_le s now hs (Nat.le_of_not_lt ht), h1] at h0
    exact absurd h0 (by decide)

/-- In ACTIVE_OFF with the LED LOW, `loop()` leaves the LED LOW. -/
theorem loop_off_keeps_low (s : ActionLed) (now : Nat)
    (hs : s.state_ = kState_ACTIVE_OFF) (h0 : s.led_.level = false) :
    (s.loop now).led_.level = false := by
  by_cases ht : 30 < s.timer_.timeMillis now
  · rw [loop_off_of_gt s now hs ht]; rfl
  · rw [loop_off_of_le s now hs (Nat.le_of_not_lt ht)]; exact h0

/-- The tag is one of the three cases of the `switch` after every call made
on a machine whose tag is one of them. -/
theorem step_keeps_tag (s : ActionLed) (c : Call)
    (h : s.state_ = kState_IDLE ∨ s.state_ = kState_ACTIVE_ON ∨
      s.state_ = kState_ACTIVE_OFF) :
    (step s c).state_ = kState_IDLE ∨ (step s c).state_ = kState_ACTIVE_ON ∨
      (step s c).state_ = kState_ACTIVE_OFF := by
  cases c with
  | action => exact h
  | loop now =>
    simp only [step]
    unfold loop
    split_ifs <;> simp_all [enterActiveOnState, enterActiveOffState, enterIdleState]

/-- Every state reachable from the constructed object has one of the three
tags. -/
theorem run_ctor_tag (led0 : OutputPin) (timer0 : PassiveTimer) (cs : List Call) :
    (run (ctor led0 timer0) cs).state_ = kState_IDLE ∨
      (run (ctor led0 timer0) cs).state_ = kState_ACTIVE_ON ∨
      (run (ctor led0 timer0) cs).state_ = kState_ACTIVE_OFF := by
  have key : ∀ (ds : List Call) (s : ActionLed),
      (s.state_ = kState_IDLE ∨ s.state_ = kState_ACTIVE_ON ∨
        s.state_ = kState_ACTIVE_OFF) →
      ((run s ds).state_ = kState_IDLE ∨ (run s ds).state_ = kState_ACTIVE_ON ∨
        (run s ds).state_ = kState_ACTIVE_OFF) := by
    intro ds
    induction ds with
    | nil => intro s h; exact h
    | cons d ds ih => intro s h; rw [run_cons]; exact ih _ (step_keeps_tag s d h)
  exact key cs _ (Or.inl rfl)

/-- With an action pending and every poll passing the timer test of the
current case, a pulse starts at the first poll from IDLE, at the second from
ACTIVE_OFF and at the third from ACTIVE_ON. -/
theorem three_polls_start_pulse (s : ActionLed) (t1 t2 t3 : Nat)
    (htag : s.state_ = kState_IDLE ∨ s.state_ = kState_ACTIVE_ON ∨
      s.state_ = kState_ACTIVE_OFF)
    (hp : s.pending_actions_ = true)
    (h1 : thresholdPassed s t1 = true)
    (h2 : thresholdPassed (s.loop t1) t2 = true) :
    (s.state_ = kState_IDLE ∧ (s.loop t1).state_ = kState_ACTIVE_ON ∧
      (s.loop t1).led_.level = true ∧ (s.loop t1).pending_actions_ = false) ∨
    (s.state_ = kState_ACTIVE_OFF ∧ (s.loop t1).state_ = kState_IDLE ∧
      (s.loop t1).pending_actions_ = true ∧
      ((s.loop t1).loop t2).state_ = kState_ACTIVE_ON ∧
      ((s.loop t1).loop t2).led_.level = true ∧
      ((s.loop t1).loop t2).pending_actions_ = false) ∨
    (s.state_ = kState_ACTIVE_ON ∧ (s.loop t1).state_ = kState_ACTIVE_OFF ∧
      ((s.loop t1).loop t2).state_ = kState_IDLE ∧
      ((s.loop t1).loop t2).pending_actions_ = true ∧
      (((s.loop t1).loop t2).loop t3).state_ = kState_ACTIVE_ON ∧
      (((s.loop t1).loop t2).loop t3).led_.level = true ∧
      (((s.loop t1).loop t2).loop t3).pending_actions_ = false) := by
  rcases htag with hs | hs | hs
  · left
    rw [loop_idle_of_pending s t1 hs hp]
    exact ⟨hs, rfl, rfl, rfl⟩
  · right; right
    have g1 : 20 < s.timer_.timeMillis t1 := by simpa [thresholdPassed, hs] using h1
    rw [loop_on_of_gt s t1 hs g1] at h2 ⊢
    have g2 : 30 < (enterActiveOffState s t1).timer_.timeMillis t2 := by
      simpa [thresholdPassed, enterActiveOffState] using h2
    rw [loop_off_of_gt (enterActiveOffState s t1) t2 rfl g2,
      loop_idle_of_pending (enterIdleState (enterActiveOffState s t1)) t3 rfl hp]
    exact ⟨hs, rfl, rfl, hp, rfl, rfl, rfl⟩
  · right; left
    have g1 : 30 < s.timer_.timeMillis t1 := by simpa [thresholdPassed, hs] using h1
    rw [loop_off_of_gt s t1 hs g1, loop_idle_of_pending (enterIdleState s) t2 rfl hp]
    exact ⟨hs, rfl, hp, rfl, rfl, rfl⟩

/-- A `loop()` call that clears a set pending flag starts in IDLE and leaves
the LED HIGH. -/
theorem loop_consume_rises (s : ActionLed) (now : Nat)
    (hp : s.pending_actions_ = true) (hq : (s.loop now).pending_actions_ = false) :
    s.state_ = kState_IDLE ∧ (s.loop now).led_.level = true := by
  unfold loop at hq ⊢
  split_ifs at hq ⊢ <;>
    simp_all [enterActiveOnState, enterActiveOffState, enterIdleState, OutputPin.high]

/-- With an action pending and the LED HIGH exactly in ACTIVE_ON, polling
turns the LED from LOW to HIGH exactly once if it consumes the pending
action, and not at all as long as the action is still pending. -/
theorem risingEdges_of_pending (ts : List Nat) (s : ActionLed)
    (hinv : s.led_.level = true ↔ s.state_ = kState_ACTIVE_ON)
    (hp : s.pending_actions_ = true) :
    risingEdges (ledHistory s ts) =
      if (runLoops s ts).pending_actions_ = true then 0 else 1 := by
  induction ts generalizing s with
  | nil => simp [ledHistory_nil, risingEdges, runLoops_nil, hp]
  | cons t ts ih =>
    rw [ledHistory_cons, risingEdges_cons_ledHistory, runLoops_cons]
    cases hq : (s.loop t).pending_actions_ with
    | true =>
      have hno : ¬ (s.led_.level = false ∧ (s.loop t).led_.level = true) := by
        rintro ⟨h0, h1⟩
        have := (loop_rise_consumes s t h0 h1).2
        rw [hq] at this
        exact Bool.noConfusion this
      rw [ih (s.loop t) (loop_keeps_led_iff s t hinv) hq]
      simp [hno]
    | false =>
      obtain ⟨hidle, hhigh⟩ := loop_consume_rises s t hp hq
      have hlow : s.led_.level = false := by
        cases hl : s.led_.level with
        | false => rfl
        | true =>
          have := hinv.mp hl
          rw [hidle] at this
          exact absurd this (by decide)
      rw [risingEdges_of_not_pending ts _ hq, runLoops_pending_false ts _ hq]
      simp [hlow, hhigh]

/-! ## The claims -/

/-- C1: in every state reachable from the constructed object by a finite
sequence of `action()` and `loop()` calls, with arbitrary clock (hence timer)
readings, the LED output is HIGH if and only if `state_` is ACTIVE_ON. -/
theorem led_high_iff_active_on (led0 : OutputPin) (timer0 : PassiveTimer)
    (cs : List Call) :
    (run (ctor led0 timer0) cs).led_.level = true ↔
      (run (ctor led0 timer0) cs).state_ = kState_ACTIVE_ON := by
  apply run_keeps_led_iff
  simp [ctor, enterIdleState, OutputPin.low]

/-- C2, the scenario state: after `action()` and `loop()` at clock 0 the
machine is in ACTIVE_ON with the timer started at 0; at clock 20 the timer
reads exactly 20 and `loop()` leaves the machine in ACTIVE_ON with the LED
HIGH, and the five polls at 0, 19, 20, 49, 50 do not end in
ACTIVE_ON, ACTIVE_ON, ACTIVE_OFF, ACTIVE_OFF, IDLE. -/
theorem loop_active_on_at_20_stays :
    (run (ctor ⟨false, false⟩ ⟨0⟩) [Call.action, Call.loop 0]).state_ = kState_ACTIVE_ON ∧
    (run (ctor ⟨false, false⟩ ⟨0⟩) [Call.action, Call.loop 0]).timer_.timeMillis 20 = 20 ∧
    ((run (ctor ⟨false, false⟩ ⟨0⟩) [Call.action, Call.loop 0]).loop 20).state_
      = kState_ACTIVE_ON ∧
    ((run (ctor ⟨false, false⟩ ⟨0⟩) [Call.action, Call.loop 0]).loop 20).led_.level = true ∧
    tagHistory (ctor ⟨false, false⟩ ⟨0⟩).action [0, 19, 20, 49, 50]
      ≠ [kState_IDLE, kState_ACTIVE_ON, kState_ACTIVE_ON, kState_ACTIVE_OFF,
          kState_ACTIVE_OFF, kState_IDLE] := by
  decide

/-- C2 (amended): for every state in ACTIVE_ON and every timer reading above
20, `loop()` moves the machine to ACTIVE_OFF, sets the output LOW and restarts
the timer (it reads 0 at that instant), keeping the pending flag; with a timer
reading of 20 or less `loop()` changes nothing.  In the scenario `action()` at
0 and `loop()` at 0, 19, 20, 49, 50 the tags after the five polls are
ACTIVE_ON, ACTIVE_ON, ACTIVE_ON, ACTIVE_OFF, ACTIVE_OFF. -/
theorem loop_active_on_expired :
    (∀ (s : ActionLed) (now : Nat), s.state_ = kState_ACTIVE_ON →
        20 < s.timer_.timeMillis now →
        (s.loop now).state_ = kState_ACTIVE_OFF ∧
        (s.loop now).led_.level = false ∧
        (s.loop now).timer_ = s.timer_.restart now ∧
        (s.loop now).timer_.timeMillis now = 0 ∧
        (s.loop now).pending_actions_ = s.pending_actions_) ∧
    (∀ (s : ActionLed) (now : Nat), s.state_ = kState_ACTIVE_ON →
        s.timer_.timeMillis now ≤ 20 → s.loop now = s) ∧
    (∀ (led0 : OutputPin) (timer0 : PassiveTimer),
        tagHistory (ctor led0 timer0).action [0, 19, 20, 49, 50]
          = [kState_IDLE, kState_ACTIVE_ON, kState_ACTIVE_ON, kState_ACTIVE_ON,
              kState_ACTIVE_OFF, kState_ACTIVE_OFF]) := by
  refine ⟨?_, ?_, ?_⟩
  · intro s now hs ht
    rw [loop_on_of_gt s now hs ht]
    simp [enterActiveOffState, OutputPin.low, PassiveTimer.restart, PassiveTimer.timeMillis]
  · intro s now hs ht
    exact loop_on_of_le s now hs ht
  · intro led0 timer0
    simp [tagHistory, loopTrace, loop, ctor, action, enterIdleState, enterActiveOnState,
      enterActiveOffState, PassiveTimer.restart, PassiveTimer.timeMillis]

/-- C2 (amended), at concrete inputs: ACTIVE_ON entered at clock 0 and
polled at clock 21, and polled at clock 20. -/
theorem loop_active_on_expired_witness :
    ((ActionLed.mk kState_ACTIVE_ON ⟨true, true⟩ ⟨0⟩ true).loop 21).state_
        = kState_ACTIVE_OFF ∧
    (ActionLed.mk kState_ACTIVE_ON ⟨true, true⟩ ⟨0⟩ true).loop 20
        = ActionLed.mk kState_ACTIVE_ON ⟨true, true⟩ ⟨0⟩ true :=
  ⟨(loop_active_on_expired.1 (ActionLed.mk kState_ACTIVE_ON ⟨true, true⟩ ⟨0⟩ true) 21 rfl
      (by decide)).1,
   loop_active_on_expired.2.1 (ActionLed.mk kState_ACTIVE_ON ⟨true, true⟩ ⟨0⟩ true) 20 rfl
      (by decide)⟩

/-- C3, a reachable state: after `action()`, `loop()` at 0 and `loop()` at 21
the machine is in ACTIVE_OFF with the timer started at 21; at clock 51 the
timer reads exactly 30 and `loop()` leaves the machine in ACTIVE_OFF. -/
theorem loop_active_off_at_30_stays :
    (run (ctor ⟨false, false⟩ ⟨0⟩) [Call.action, Call.loop 0, Call.loop 21]).state_
      = kState_ACTIVE_OFF ∧
    (run (ctor ⟨false, false⟩ ⟨0⟩)
      [Call.action, Call.loop 0, Call.loop 21]).timer_.timeMillis 51 = 30 ∧
    ((run (ctor ⟨false, false⟩ ⟨0⟩)
      [Call.action, Call.loop 0, Call.loop 21]).loop 51).state_ = kState_ACTIVE_OFF ∧
    ((run (ctor ⟨false, false⟩ ⟨0⟩)
      [Call.action, Call.loop 0, Call.loop 21]).loop 51).state_ ≠ kState_IDLE := by
  decide

/-- C3 (amended): for every state in ACTIVE_OFF and every timer reading above
30, `loop()` moves the machine to IDLE with the output LOW, whatever the value
of the pending flag, which it keeps; with a timer reading of 30 or less
`loop()` changes nothing. -/
theorem loop_active_off_expired :
    (∀ (s : ActionLed) (now : Nat), s.state_ = kState_ACTIVE_OFF →
        30 < s.timer_.timeMillis now →
        (s.loop now).state_ = kState_IDLE ∧
        (s.loop now).led_.level = false ∧
        (s.loop now).pending_actions_ = s.pending_actions_) ∧
    (∀ (s : ActionLed) (now : Nat), s.state_ = kState_ACTIVE_OFF →
        s.timer_.timeMillis now ≤ 30 → s.loop now = s) := by
  refine ⟨?_, ?_⟩
  · intro s now hs ht
    rw [loop_off_of_gt s now hs ht]
    simp [enterIdleState, OutputPin.low]
  · intro s now hs ht
    exact loop_off_of_le s now hs ht

/-- C3 (amended), at concrete inputs: ACTIVE_OFF entered at clock 21 and
polled at clock 52 with an action pending, and polled at clock 51. -/
theorem loop_active_off_expired_witness :
    ((ActionLed.mk kState_ACTIVE_OFF ⟨true, false⟩ ⟨21⟩ true).loop 52).state_
        = kState_IDLE ∧
    (ActionLed.mk kState_ACTIVE_OFF ⟨true, false⟩ ⟨21⟩ true).loop 51
        = ActionLed.mk kState_ACTIVE_OFF ⟨true, false⟩ ⟨21⟩ true :=
  ⟨(loop_active_off_expired.1 (ActionLed.mk kState_ACTIVE_OFF ⟨true, false⟩ ⟨21⟩ true) 52 rfl
      (by decide)).1,
   loop_active_off_expired.2 (ActionLed.mk kState_ACTIVE_OFF ⟨true, false⟩ ⟨21⟩ true) 51 rfl
      (by decide)⟩

/-- C4: for every state in IDLE with an action pending and every clock
reading, `loop()` yields ACTIVE_ON with the output HIGH, the timer restarted
(it reads 0 at that instant) and the pending flag cleared. -/
theorem loop_idle_pending (s : ActionLed) (now : Nat)
    (hs : s.state_ = kState_IDLE) (hp : s.pending_actions_ = true) :
    (s.loop now).state_ = kState_ACTIVE_ON ∧
    (s.loop now).led_.level = true ∧
    (s.loop now).timer_ = s.timer_.restart now ∧
    (s.loop now).timer_.timeMillis now = 0 ∧
    (s.loop now).pending_actions_ = false := by
  rw [loop_idle_of_pending s now hs hp]
  simp [enterActiveOnState, OutputPin.high, PassiveTimer.restart, PassiveTimer.timeMillis]

/-- C4 at a concrete input: IDLE with an action pending, polled at clock 7
while the old reference point of the timer is 3. -/
theorem loop_idle_pending_witness :
    ((ActionLed.mk kState_IDLE ⟨true, false⟩ ⟨3⟩ true).loop 7).state_ = kState_ACTIVE_ON ∧
    ((ActionLed.mk kState_IDLE ⟨true, false⟩ ⟨3⟩ true).loop 7).led_.level = true ∧
    ((ActionLed.mk kState_IDLE ⟨true, false⟩ ⟨3⟩ true).loop 7).timer_
      = (PassiveTimer.mk 3).restart 7 ∧
    ((ActionLed.mk kState_IDLE ⟨true, false⟩ ⟨3⟩ true).loop 7).timer_.timeMillis 7 = 0 ∧
    ((ActionLed.mk kState_IDLE ⟨true, false⟩ ⟨3⟩ true).loop 7).pending_actions_ = false :=
  loop_idle_pending (ActionLed.mk kState_IDLE ⟨true, false⟩ ⟨3⟩ true) 7 rfl rfl

/-- C5: thresholds are minimums.  In ACTIVE_ON with a timer reading below 20,
and in ACTIVE_OFF with a timer reading below 30, `loop()` returns the machine
unchanged (tag, LED level, pending flag and timer reference point).  Hence the
dwell is never shorter than the threshold: once ACTIVE_ON is entered at clock
`t0`, every run of calls whose polls all come before `t0 + 20` ends in
ACTIVE_ON with the LED HIGH, and once ACTIVE_OFF is entered at clock `t0`,
every run of calls whose polls all come before `t0 + 30` ends in ACTIVE_OFF
with the LED LOW. -/
theorem thresholds_are_minimums :
    (∀ (s : ActionLed) (now : Nat), s.state_ = kState_ACTIVE_ON →
        s.timer_.timeMillis now < 20 →
        s.loop now = s ∧ (s.loop now).state_ = s.state_ ∧
        (s.loop now).led_.level = s.led_.level ∧
        (s.loop now).pending_actions_ = s.pending_actions_ ∧
        (s.loop now).timer_.start_time_millis_ = s.timer_.start_time_millis_) ∧
    (∀ (s : ActionLed) (now : Nat), s.state_ = kState_ACTIVE_OFF →
        s.timer_.timeMillis now < 30 →
        s.loop now = s ∧ (s.loop now).state_ = s.state_ ∧
        (s.loop now).led_.level = s.led_.level ∧
        (s.loop now).pending_actions_ = s.pending_actions_ ∧
        (s.loop now).timer_.start_time_millis_ = s.timer_.start_time_millis_) ∧
    (∀ (s : ActionLed) (t0 : Nat) (cs : List Call), s.state_ = kState_IDLE →
        s.pending_actions_ = true → (∀ c ∈ cs, Call.before (t0 + 20) c = true) →
        (run (s.loop t0) cs).state_ = kState_ACTIVE_ON ∧
        (run (s.loop t0) cs).led_.level = true) ∧
    (∀ (s : ActionLed) (t0 : Nat) (cs : List Call), s.state_ = kState_ACTIVE_ON →
        20 < s.timer_.timeMillis t0 → (∀ c ∈ cs, Call.before (t0 + 30) c = true) →
        (run (s.loop t0) cs).state_ = kState_ACTIVE_OFF ∧
        (run (s.loop t0) cs).led_.level = false) := by
  refine ⟨?_, ?_, ?_, ?_⟩
  · intro s now hs ht
    have h := loop_on_of_le s now hs (Nat.le_of_lt ht)
    simp [h]
  · intro s now hs ht
    have h := loop_off_of_le s now hs (Nat.le_of_lt ht)
    simp [h]
  · intro s t0 cs hs hp hcs
    rw [loop_idle_of_pending s t0 hs hp]
    obtain ⟨h1, h2, _⟩ :=
      run_dwells_on cs { enterActiveOnState s t0 with pending_actions_ := false } rfl hcs
    exact ⟨h1, by rw [h2]; rfl⟩
  · intro s t0 cs hs ht hcs
    rw [loop_on_of_gt s t0 hs ht]
    obtain ⟨h1, h2, _⟩ := run_dwells_off cs (enterActiveOffState s t0) rfl hcs
    exact ⟨h1, by rw [h2]; rfl⟩

/-- C5 at concrete inputs: polls at readings 19 and 29 change nothing; a pulse
started at clock 100 is still on after polls at 105 and 119 (with an
`action()` in between), and a blackout started at clock 100 is still running
after polls at 110 and 129. -/
theorem thresholds_are_minimums_witness :
    (ActionLed.mk kState_ACTIVE_ON ⟨true, true⟩ ⟨5⟩ false).loop 24
        = ActionLed.mk kState_ACTIVE_ON ⟨true, true⟩ ⟨5⟩ false ∧
    (ActionLed.mk kState_ACTIVE_OFF ⟨true, false⟩ ⟨5⟩ true).loop 34
        = ActionLed.mk kState_ACTIVE_OFF ⟨true, false⟩ ⟨5⟩ true ∧
    (run ((ActionLed.mk kState_IDLE ⟨true, false⟩ ⟨0⟩ true).loop 100)
        [Call.loop 105, Call.action, Call.loop 119]).state_ = kState_ACTIVE_ON ∧
    (run ((ActionLed.mk kState_ACTIVE_ON ⟨true, true⟩ ⟨70⟩ false).loop 100)
        [Call.loop 110, Call.action, Call.loop 129]).state_ = kState_ACTIVE_OFF :=
  ⟨(thresholds_are_minimums.1 (ActionLed.mk kState_ACTIVE_ON ⟨true, true⟩ ⟨5⟩ false) 24 rfl
      (by decide)).1,
   (thresholds_are_minimums.2.1 (ActionLed.mk kState_ACTIVE_OFF ⟨true, false⟩ ⟨5⟩ true) 34 rfl
      (by decide)).1,
   (thresholds_are_minimums.2.2.1 (ActionLed.mk kState_IDLE ⟨true, false⟩ ⟨0⟩ true) 100
      [Call.loop 105, Call.action, Call.loop 119] rfl rfl
      (by decide)).1,
   (thresholds_are_minimums.2.2.2 (ActionLed.mk kState_ACTIVE_ON ⟨true, true⟩ ⟨70⟩ false) 100
      [Call.loop 110, Call.action, Call.loop 129] rfl (by decide)
      (by decide)).1⟩

/-- C6: in every state, whatever its tag and its pending flag, `action()`
yields a state with the pending flag set and with the state tag, the LED
output (level and setup) and the timer unchanged. -/
theorem action_sets_pending_only (s : ActionLed) :
    s.action.pending_actions_ = true ∧ s.action.state_ = s.state_ ∧
    s.action.led_.level = s.led_.level ∧ s.action.led_ = s.led_ ∧
    s.action.timer_ = s.timer_ :=
  ⟨rfl, rfl, rfl, rfl, rfl⟩

/-- C7: coalescing law.  For every state and every `n ≥ 1`, `n` calls of
`action()` in a row yield exactly the state that one call yields, with the
pending flag set; so every subsequent sequence of `loop()` calls gives the
same final state and the same LED history as after one call.  That history
holds one pulse, not `n`: the LED never goes from LOW to HIGH more than once;
in a state with the LED HIGH exactly in ACTIVE_ON (as in every reachable
state) it goes from LOW to HIGH exactly once when the polls consume the
pending action and not at all while the action is still pending; and from
IDLE with the LED LOW the first poll starts that one pulse. -/
theorem action_coalesces (s : ActionLed) (n : Nat) (hn : 1 ≤ n) :
    action^[n] s = s.action ∧
    (action^[n] s).pending_actions_ = true ∧
    (∀ ts : List Nat, runLoops (action^[n] s) ts = runLoops s.action ts) ∧
    (∀ ts : List Nat, ledHistory (action^[n] s) ts = ledHistory s.action ts) ∧
    (∀ ts : List Nat, risingEdges (ledHistory (action^[n] s) ts) ≤ 1) ∧
    (∀ ts : List Nat, (s.led_.level = true ↔ s.state_ = kState_ACTIVE_ON) →
        risingEdges (ledHistory (action^[n] s) ts) =
          if (runLoops (action^[n] s) ts).pending_actions_ = true then 0 else 1) ∧
    (∀ (t : Nat) (ts : List Nat), s.state_ = kState_IDLE → s.led_.level = false →
        ((action^[n] s).loop t).state_ = kState_ACTIVE_ON ∧
        ((action^[n] s).loop t).led_.level = true ∧
        risingEdges (ledHistory (action^[n] s) (t :: ts)) = 1) := by
  obtain ⟨m, rfl⟩ : ∃ m, n = m + 1 := ⟨n - 1, by omega⟩
  have h := iterate_action_succ m s
  refine ⟨h, by rw [h]; rfl, ?_, ?_, ?_, ?_, ?_⟩
  · intro ts; rw [h]
  · intro ts; rw [h]
  · intro ts; exact risingEdges_le_one ts _
  · intro ts hinv
    rw [h]
    exact risingEdges_of_pending ts s.action hinv rfl
  · intro t ts hs hl
    rw [h]
    have hfirst : s.action.loop t =
        { enterActiveOnState s.action t with pending_actions_ := false } :=
      loop_idle_of_pending s.action t hs rfl
    refine ⟨by rw [hfirst]; rfl, by rw [hfirst]; rfl, ?_⟩
    rw [ledHistory_cons, risingEdges_cons_ledHistory, hfirst,
      risingEdges_of_not_pending ts _ rfl]
    have hl2 : s.action.led_.level = false := hl
    simp [hl2, enterActiveOnState, OutputPin.high]

/-- C7 at concrete inputs: three `action()` calls in ACTIVE_OFF entered at
clock 21 equal one call and set the flag; polls at 52, 53, 74, 105, 106, 127,
158, 159 then give exactly one LOW-to-HIGH change, while polls at 30 and 40,
too early to leave ACTIVE_OFF, give none; three `action()` calls in IDLE
followed by polls at 5, 30, 70, 71 give exactly one. -/
theorem action_coalesces_witness :
    action^[3] (ActionLed.mk kState_ACTIVE_OFF ⟨true, false⟩ ⟨21⟩ false)
      = (ActionLed.mk kState_ACTIVE_OFF ⟨true, false⟩ ⟨21⟩ false).action ∧
    (action^[3] (ActionLed.mk kState_ACTIVE_OFF ⟨true, false⟩ ⟨21⟩ false)).pending_actions_
      = true ∧
    risingEdges (ledHistory
      (action^[3] (ActionLed.mk kState_ACTIVE_OFF ⟨true, false⟩ ⟨21⟩ false))
      [52, 53, 74, 105, 106, 127, 158, 159]) = 1 ∧
    risingEdges (ledHistory
      (action^[3] (ActionLed.mk kState_ACTIVE_OFF ⟨true, false⟩ ⟨21⟩ false))
      [30, 40]) = 0 ∧
    risingEdges (ledHistory
      (action^[3] (ActionLed.mk kState_IDLE ⟨true, false⟩ ⟨0⟩ false))
      [5, 30, 70, 71]) = 1 :=
  ⟨(action_coalesces (ActionLed.mk kState_ACTIVE_OFF ⟨true, false⟩ ⟨21⟩ false) 3
      (by decide)).1,
   (action_coalesces (ActionLed.mk kState_ACTIVE_OFF ⟨true, false⟩ ⟨21⟩ false) 3
      (by decide)).2.1,
   ((action_coalesces (ActionLed.mk kState_ACTIVE_OFF ⟨true, false⟩ ⟨21⟩ false) 3
      (by decide)).2.2.2.2.2.1 [52, 53, 74, 105, 106, 127, 158, 159]
      (by decide)).trans (by decide),
   ((action_coalesces (ActionLed.mk kState_ACTIVE_OFF ⟨true, false⟩ ⟨21⟩ false) 3
      (by decide)).2.2.2.2.2.1 [30, 40] (by decide)).trans (by decide),
   ((action_coalesces (ActionLed.mk kState_IDLE ⟨true, false⟩ ⟨0⟩ false) 3
      (by decide)).2.2.2.2.2.2 5 [30, 70, 71] rfl rfl).2.2⟩

/-- C8: from the constructed state, one `action()` followed by `loop()` calls
only, at arbitrary clock readings (non-decreasing ones in particular).  With
at least one poll, the LED is LOW before the first poll, HIGH after it, and
goes from LOW to HIGH exactly once over the whole history; the tags visited
are IDLE once, then ACTIVE_ON one or more times, then ACTIVE_OFF, then IDLE,
the sequence possibly cut short: ACTIVE_OFF may be absent only if the final
IDLE is absent too, so IDLE is never reached from ACTIVE_ON directly.  Once a
poll has left the machine in IDLE, it is in IDLE with the LED LOW and nothing
pending after every further poll. -/
theorem single_action_single_pulse :
    (∀ (led0 : OutputPin) (timer0 : PassiveTimer) (t : Nat) (ts : List Nat),
        (ctor led0 timer0).action.led_.level = false ∧
        ((ctor led0 timer0).action.loop t).led_.level = true ∧
        risingEdges (ledHistory (ctor led0 timer0).action (t :: ts)) = 1 ∧
        ∃ b c d, tagHistory (ctor led0 timer0).action (t :: ts) =
          kState_IDLE :: (List.replicate (b + 1) kState_ACTIVE_ON ++
            List.replicate c kState_ACTIVE_OFF ++ List.replicate d kState_IDLE) ∧
          (c = 0 → d = 0)) ∧
    (∀ (led0 : OutputPin) (timer0 : PassiveTimer) (ts us : List Nat), ts ≠ [] →
        (runLoops (ctor led0 timer0).action ts).state_ = kState_IDLE →
        (runLoops (ctor led0 timer0).action (ts ++ us)).state_ = kState_IDLE ∧
        (runLoops (ctor led0 timer0).action (ts ++ us)).led_.level = false ∧
        (runLoops (ctor led0 timer0).action (ts ++ us)).pending_actions_ = false) := by
  have hfirst : ∀ (led0 : OutputPin) (timer0 : PassiveTimer) (t : Nat),
      (ctor led0 timer0).action.loop t =
        { enterActiveOnState (ctor led0 timer0).action t with pending_actions_ := false } :=
    fun led0 timer0 t => loop_idle_of_pending _ t rfl rfl
  refine ⟨?_, ?_⟩
  · intro led0 timer0 t ts
    refine ⟨rfl, by rw [hfirst]; rfl, ?_, ?_⟩
    · rw [ledHistory_cons, risingEdges_cons_ledHistory, hfirst,
        risingEdges_of_not_pending ts _ rfl]
      rfl
    · rw [tagHistory_cons, hfirst]
      obtain ⟨b, c, d, h, hcd⟩ := tagHistory_on_quiet ts
        { enterActiveOnState (ctor led0 timer0).action t with pending_actions_ := false }
        rfl rfl
      exact ⟨b, c, d, by rw [h]; rfl, hcd⟩
  · intro led0 timer0 ts us hne hidle
    cases ts with
    | nil => exact absurd rfl hne
    | cons t ts =>
      have hp : (runLoops (ctor led0 timer0).action (t :: ts)).pending_actions_ = false := by
        rw [runLoops_cons, hfirst]
        exact runLoops_pending_false ts _ rfl
      have hled : (runLoops (ctor led0 timer0).action (t :: ts)).led_.level = false := by
        have hiff := run_keeps_led_iff ((t :: ts).map Call.loop) (ctor led0 timer0).action
          (by simp [ctor, action, enterIdleState, OutputPin.low])
        rw [← runLoops_eq_run, hidle] at hiff
        cases hl : (runLoops (ctor led0 timer0).action (t :: ts)).led_.level with
        | false => rfl
        | true => exact absurd (hiff.mp hl) (by decide)
      rw [runLoops_append, runLoops_idle_quiet us _ hidle hp]
      exact ⟨hidle, hled, hp⟩

/-- C8 at a concrete input: the constructed object, `action()`, then polls at
0, 10, 21, 40, 52, 60.  The tags are IDLE, ACTIVE_ON twice, ACTIVE_OFF twice,
IDLE twice, of the form the theorem gives; the LED history has one
LOW-to-HIGH change; the machine is back in IDLE after the polls at 0, 21, 52
and stays there over further polls at 60 and 1000. -/
theorem single_action_single_pulse_witness :
    tagHistory (ctor ⟨false, false⟩ ⟨0⟩).action [0, 10, 21, 40, 52, 60]
        = [kState_IDLE, kState_ACTIVE_ON, kState_ACTIVE_ON, kState_ACTIVE_OFF,
            kState_ACTIVE_OFF, kState_IDLE, kState_IDLE] ∧
    (∃ b c d, tagHistory (ctor ⟨false, false⟩ ⟨0⟩).action (0 :: [10, 21, 40, 52, 60]) =
        kState_IDLE :: (List.replicate (b + 1) kState_ACTIVE_ON ++
          List.replicate c kState_ACTIVE_OFF ++ List.replicate d kState_IDLE) ∧
        (c = 0 → d = 0)) ∧
    risingEdges (ledHistory (ctor ⟨false, false⟩ ⟨0⟩).action [0, 10, 21, 40, 52, 60]) = 1 ∧
    (runLoops (ctor ⟨false, false⟩ ⟨0⟩).action ([0, 21, 52] ++ [60, 1000])).state_
        = kState_IDLE ∧
    (runLoops (ctor ⟨false, false⟩ ⟨0⟩).action ([0, 21, 52] ++ [60, 1000])).led_.level
        = false ∧
    (runLoops (ctor ⟨false, false⟩ ⟨0⟩).action ([0, 21, 52] ++ [60, 1000])).pending_actions_
        = false :=
  ⟨by decide,
   (single_action_single_pulse.1 ⟨false, false⟩ ⟨0⟩ 0 [10, 21, 40, 52, 60]).2.2.2,
   (single_action_single_pulse.1 ⟨false, false⟩ ⟨0⟩ 0 [10, 21, 40, 52, 60]).2.2.1,
   single_action_single_pulse.2 ⟨false, false⟩ ⟨0⟩ [0, 21, 52] [60, 1000]
      (by decide) (by decide)⟩

/-- C9: with no `action()` call, after every finite sequence of `loop()`
calls at arbitrary clock readings the constructed object is unchanged: the
state is IDLE, the LED is LOW and nothing is pending. -/
theorem no_action_stays_idle (led0 : OutputPin) (timer0 : PassiveTimer) (ts : List Nat) :
    (runLoops (ctor led0 timer0) ts).state_ = kState_IDLE ∧
    (runLoops (ctor led0 timer0) ts).led_.level = false ∧
    (runLoops (ctor led0 timer0) ts).pending_actions_ = false ∧
    runLoops (ctor led0 timer0) ts = ctor led0 timer0 ∧
    ledHistory (ctor led0 timer0) ts = List.replicate (ts.length + 1) false := by
  have h := runLoops_idle_quiet ts (ctor led0 timer0) rfl rfl
  refine ⟨by rw [h]; rfl, by rw [h]; rfl, by rw [h]; rfl, h, ?_⟩
  generalize hs : ctor led0 timer0 = s
  have h1 : s.state_ = kState_IDLE := by rw [← hs]; rfl
  have h2 : s.pending_actions_ = false := by rw [← hs]; rfl
  have h3 : s.led_.level = false := by rw [← hs]; rfl
  clear hs h
  induction ts with
  | nil => rw [ledHistory_nil, h3]; rfl
  | cons t ts ih =>
    rw [ledHistory_cons, loop_idle_of_not_pending s t h1 h2, ih, h3]
    rfl

/-- C10: coalesced re-trigger.  In ACTIVE_OFF, after `action()` and any polls
that come while the timer reads at most 30, the `loop()` call that finds the
timer above 30 moves to IDLE and leaves the pending flag set; the very next
`loop()` call, at any clock reading, enters ACTIVE_ON with the output HIGH and
the pending flag cleared. -/
theorem coalesced_retrigger (s : ActionLed) (waits : List Nat) (now next : Nat)
    (hs : s.state_ = kState_ACTIVE_OFF)
    (hw : ∀ w ∈ waits, s.timer_.timeMillis w ≤ 30)
    (ht : 30 < s.timer_.timeMillis now) :
    ((runLoops s.action waits).loop now).state_ = kState_IDLE ∧
    ((runLoops s.action waits).loop now).pending_actions_ = true ∧
    (((runLoops s.action waits).loop now).loop next).state_ = kState_ACTIVE_ON ∧
    (((runLoops s.action waits).loop now).loop next).led_.level = true ∧
    (((runLoops s.action waits).loop now).loop next).pending_actions_ = false := by
  rw [runLoops_off_wait waits s.action hs hw, loop_off_of_gt s.action now hs ht]
  rw [loop_idle_of_pending (enterIdleState s.action) next rfl rfl]
  exact ⟨rfl, rfl, rfl, rfl, rfl⟩

/-- C10 at a concrete input: blackout started at clock 21, `action()`, polls at
30 and 51, the transition to IDLE at 52, and the next poll still at 52. -/
theorem coalesced_retrigger_witness :
    ((runLoops (ActionLed.mk kState_ACTIVE_OFF ⟨true, false⟩ ⟨21⟩ false).action
        [30, 51]).loop 52).state_ = kState_IDLE ∧
    ((runLoops (ActionLed.mk kState_ACTIVE_OFF ⟨true, false⟩ ⟨21⟩ false).action
        [30, 51]).loop 52).pending_actions_ = true ∧
    (((runLoops (ActionLed.mk kState_ACTIVE_OFF ⟨true, false⟩ ⟨21⟩ false).action
        [30, 51]).loop 52).loop 52).state_ = kState_ACTIVE_ON ∧
    (((runLoops (ActionLed.mk kState_ACTIVE_OFF ⟨true, false⟩ ⟨21⟩ false).action
        [30, 51]).loop 52).loop 52).led_.level = true ∧
    (((runLoops (ActionLed.mk kState_ACTIVE_OFF ⟨true, false⟩ ⟨21⟩ false).action
        [30, 51]).loop 52).loop 52).pending_actions_ = false :=
  coalesced_retrigger (ActionLed.mk kState_ACTIVE_OFF ⟨true, false⟩ ⟨21⟩ false) [30, 51] 52 52
    rfl (by decide) (by decide)

/-- C11: `loop()` performs at most one transition per call.  For every state
and clock reading the tag after the call is the tag before it or its
immediate successor in the cycle IDLE, ACTIVE_ON, ACTIVE_OFF, IDLE.  From
ACTIVE_OFF with an action pending and the timer above 30 the result is IDLE,
not ACTIVE_ON; from IDLE with an action pending the result is ACTIVE_ON
whatever the timer reads. -/
theorem loop_at_most_one_transition :
    (∀ (s : ActionLed) (now : Nat),
        (s.loop now).state_ = s.state_ ∨
        (s.state_ = kState_IDLE ∧ (s.loop now).state_ = kState_ACTIVE_ON) ∨
        (s.state_ = kState_ACTIVE_ON ∧ (s.loop now).state_ = kState_ACTIVE_OFF) ∨
        (s.state_ = kState_ACTIVE_OFF ∧ (s.loop now).state_ = kState_IDLE)) ∧
    (∀ (s : ActionLed) (now : Nat), s.state_ = kState_ACTIVE_OFF →
        s.pending_actions_ = true → 30 < s.timer_.timeMillis now →
        (s.loop now).state_ = kState_IDLE ∧ (s.loop now).state_ ≠ kState_ACTIVE_ON) ∧
    (∀ (s : ActionLed) (now : Nat), s.state_ = kState_IDLE →
        s.pending_actions_ = true → (s.loop now).state_ = kState_ACTIVE_ON) := by
  refine ⟨?_, ?_, ?_⟩
  · intro s now
    unfold loop
    split_ifs <;> simp_all [enterActiveOnState, enterActiveOffState, enterIdleState]
  · intro s now hs _ ht
    rw [loop_off_of_gt s now hs ht]
    exact ⟨rfl, by simp [enterIdleState]⟩
  · intro s now hs hp
    rw [loop_idle_of_pending s now hs hp]
    rfl

/-- C11 at concrete inputs: ACTIVE_OFF entered at clock 21 with an action
pending, polled at clock 1000; IDLE with an action pending and a timer last
started at clock 0, polled at clock 100000. -/
theorem loop_at_most_one_transition_witness :
    ((ActionLed.mk kState_ACTIVE_OFF ⟨true, false⟩ ⟨21⟩ true).loop 1000).state_
        = kState_IDLE ∧
    ((ActionLed.mk kState_IDLE ⟨true, false⟩ ⟨0⟩ true).loop 100000).state_
        = kState_ACTIVE_ON :=
  ⟨(loop_at_most_one_transition.2.1 (ActionLed.mk kState_ACTIVE_OFF ⟨true, false⟩ ⟨21⟩ true)
      1000 rfl rfl (by decide)).1,
   loop_at_most_one_transition.2.2 (ActionLed.mk kState_IDLE ⟨true, false⟩ ⟨0⟩ true)
      100000 rfl rfl⟩

/-- C12: for every state and clock reading, `loop()` never changes the
pending flag from false to true; it changes it from true to false only when
the state before the call is IDLE and the state after it is ACTIVE_ON, and
then the LED is HIGH; in ACTIVE_ON and in ACTIVE_OFF, the transitions out of
them included, the flag is preserved. -/
theorem loop_pending_discipline :
    (∀ (s : ActionLed) (now : Nat), s.pending_actions_ = false →
        (s.loop now).pending_actions_ = false) ∧
    (∀ (s : ActionLed) (now : Nat), s.pending_actions_ = true →
        (s.loop now).pending_actions_ = false →
        s.state_ = kState_IDLE ∧ (s.loop now).state_ = kState_ACTIVE_ON ∧
        (s.loop now).led_.level = true) ∧
    (∀ (s : ActionLed) (now : Nat),
        s.state_ = kState_ACTIVE_ON ∨ s.state_ = kState_ACTIVE_OFF →
        (s.loop now).pending_actions_ = s.pending_actions_) := by
  refine ⟨?_, ?_, ?_⟩
  · intro s now hp
    exact loop_pending_false s now hp
  · intro s now hp hq
    unfold loop at hq ⊢
    split_ifs at hq ⊢ <;>
      simp_all [enterActiveOnState, enterActiveOffState, enterIdleState, OutputPin.high]
  · intro s now hs
    unfold loop
    rcases hs with hs | hs <;>
      split_ifs <;> simp_all [enterActiveOffState, enterIdleState]

/-- C12 at concrete inputs: nothing pending in ACTIVE_ON past the threshold;
the flag consumed in IDLE; the flag kept on the way from ACTIVE_OFF to IDLE. -/
theorem loop_pending_discipline_witness :
    ((ActionLed.mk kState_ACTIVE_ON ⟨true, true⟩ ⟨0⟩ false).loop 21).pending_actions_
        = false ∧
    ((ActionLed.mk kState_IDLE ⟨true, false⟩ ⟨0⟩ true).loop 5).state_
        = kState_ACTIVE_ON ∧
    ((ActionLed.mk kState_ACTIVE_OFF ⟨true, false⟩ ⟨21⟩ true).loop 52).pending_actions_
        = true :=
  ⟨loop_pending_discipline.1 (ActionLed.mk kState_ACTIVE_ON ⟨true, true⟩ ⟨0⟩ false) 21 rfl,
   (loop_pending_discipline.2.1 (ActionLed.mk kState_IDLE ⟨true, false⟩ ⟨0⟩ true) 5 rfl
      (by decide)).2.1,
   loop_pending_discipline.2.2 (ActionLed.mk kState_ACTIVE_OFF ⟨true, false⟩ ⟨21⟩ true) 52
      (Or.inr rfl)⟩

/-- C13, a reachable state: after `action()`, `loop()` at 0 and `loop()` at 21
the machine is in ACTIVE_OFF with the timer started at 21; `loop()` at 52
changes the tag to IDLE and leaves the timer as it was: its reference point
is still 21, not the moment of entry 52, and it reads 31 at that instant. -/
theorem loop_enter_idle_keeps_timer :
    (run (ctor ⟨false, false⟩ ⟨0⟩) [Call.action, Call.loop 0, Call.loop 21]).state_
      = kState_ACTIVE_OFF ∧
    ((run (ctor ⟨false, false⟩ ⟨0⟩) [Call.action, Call.loop 0, Call.loop 21]).loop 52).state_
      = kState_IDLE ∧
    ((run (ctor ⟨false, false⟩ ⟨0⟩) [Call.action, Call.loop 0, Call.loop 21]).loop 52).timer_
      ≠ (run (ctor ⟨false, false⟩ ⟨0⟩)
          [Call.action, Call.loop 0, Call.loop 21]).timer_.restart 52 ∧
    ((run (ctor ⟨false, false⟩ ⟨0⟩)
      [Call.action, Call.loop 0, Call.loop 21]).loop 52).timer_.start_time_millis_ = 21 ∧
    ((run (ctor ⟨false, false⟩ ⟨0⟩)
      [Call.action, Call.loop 0, Call.loop 21]).loop 52).timer_.timeMillis 52 = 31 := by
  decide

/-- C13 (amended): the timer is restarted on every transition into ACTIVE_ON
or ACTIVE_OFF.  For every state and clock reading for which `loop()` changes
the tag to a tag other than IDLE, the timer is restarted by that call and
reads 0 at that instant; when `loop()` changes the tag to IDLE, the
transition from ACTIVE_OFF, the timer is left as it was, its reference point
still the moment ACTIVE_OFF was entered. -/
theorem loop_restarts_timer_on_active_entry :
    (∀ (s : ActionLed) (now : Nat), (s.loop now).state_ ≠ s.state_ →
        (s.loop now).state_ ≠ kState_IDLE →
        ((s.loop now).state_ = kState_ACTIVE_ON ∨ (s.loop now).state_ = kState_ACTIVE_OFF) ∧
        (s.loop now).timer_ = s.timer_.restart now ∧
        (s.loop now).timer_.timeMillis now = 0) ∧
    (∀ (s : ActionLed) (now : Nat), (s.loop now).state_ ≠ s.state_ →
        (s.loop now).state_ = kState_IDLE →
        s.state_ = kState_ACTIVE_OFF ∧ (s.loop now).timer_ = s.timer_) := by
  refine ⟨?_, ?_⟩
  · intro s now hch hni
    unfold loop at hch hni ⊢
    split_ifs at hch hni ⊢ <;>
      simp_all [enterActiveOnState, enterActiveOffState, enterIdleState,
        PassiveTimer.restart, PassiveTimer.timeMillis]
  · intro s now hch hi
    unfold loop at hch hi ⊢
    split_ifs at hch hi ⊢ <;>
      simp_all [enterActiveOnState, enterActiveOffState, enterIdleState]

/-- C13 (amended), at concrete inputs: the transition into ACTIVE_OFF at
clock 21 restarts the timer, the transition into IDLE at clock 52 does not. -/
theorem loop_restarts_timer_on_active_entry_witness :
    ((ActionLed.mk kState_ACTIVE_ON ⟨true, true⟩ ⟨0⟩ false).loop 21).timer_
        = (PassiveTimer.mk 0).restart 21 ∧
    ((ActionLed.mk kState_ACTIVE_OFF ⟨true, false⟩ ⟨21⟩ false).loop 52).timer_
        = PassiveTimer.mk 21 :=
  ⟨(loop_restarts_timer_on_active_entry.1
      (ActionLed.mk kState_ACTIVE_ON ⟨true, true⟩ ⟨0⟩ false) 21 (by decide) (by decide)).2.1,
   (loop_restarts_timer_on_active_entry.2
      (ActionLed.mk kState_ACTIVE_OFF ⟨true, false⟩ ⟨21⟩ false) 52 (by decide) (by decide)).2⟩

/-- C14: idempotence of `loop()`.  For every state with nothing pending and a
clock that does not advance, `loop()` applied twice gives the state that
`loop()` applied once gives; after the first call any number of further
calls at the same clock reading leave the whole state (tag, LED level,
pending flag, timer) as it is. -/
theorem loop_idempotent (s : ActionLed) (now : Nat) (hp : s.pending_actions_ = false) :
    (s.loop now).loop now = s.loop now ∧
    ∀ n : Nat, runLoops (s.loop now) (List.replicate n now) = s.loop now := by
  refine ⟨loop_loop_same_clock s now hp, ?_⟩
  intro n
  induction n with
  | zero => rfl
  | succ n ih => rw [List.replicate_succ, runLoops_cons, loop_loop_same_clock s now hp, ih]

/-- C14 at a concrete input: ACTIVE_ON entered at clock 0, nothing pending,
polled at clock 25 once and then four more times. -/
theorem loop_idempotent_witness :
    ((ActionLed.mk kState_ACTIVE_ON ⟨true, true⟩ ⟨0⟩ false).loop 25).loop 25
        = (ActionLed.mk kState_ACTIVE_ON ⟨true, true⟩ ⟨0⟩ false).loop 25 ∧
    runLoops ((ActionLed.mk kState_ACTIVE_ON ⟨true, true⟩ ⟨0⟩ false).loop 25)
        (List.replicate 4 25)
        = (ActionLed.mk kState_ACTIVE_ON ⟨true, true⟩ ⟨0⟩ false).loop 25 :=
  ⟨(loop_idempotent (ActionLed.mk kState_ACTIVE_ON ⟨true, true⟩ ⟨0⟩ false) 25 rfl).1,
   (loop_idempotent (ActionLed.mk kState_ACTIVE_ON ⟨true, true⟩ ⟨0⟩ false) 25 rfl).2 4⟩

/-- C15: construction calls `setup()` on the output line, then drives it LOW,
and yields a machine in IDLE with the output LOW and nothing pending; the
timer is the one its own constructor made. -/
theorem ctor_enters_idle (led0 : OutputPin) (timer0 : PassiveTimer) :
    (ctor led0 timer0).led_ = led0.setup.low ∧
    (ctor led0 timer0).led_.configured = true ∧
    (ctor led0 timer0).state_ = kState_IDLE ∧
    (ctor led0 timer0).led_.level = false ∧
    (ctor led0 timer0).pending_actions_ = false ∧
    (ctor led0 timer0).timer_ = timer0 :=
  ⟨rfl, rfl, rfl, rfl, rfl, rfl⟩

/-- C16: refractory period.  Take any run of `action()` and `loop()` calls
from the constructed object whose polls come at non-decreasing clock
readings.  If a poll at clock `t1` turns the LED from HIGH to LOW and a later
poll at clock `t3` turns it from LOW to HIGH, then at least 30 units lie
between them (in fact more than 30).  This holds for every earlier falling
edge, the last one in particular. -/
theorem refractory_period (led0 : OutputPin) (timer0 : PassiveTimer)
    (pre mid : List Call) (t1 t3 : Nat)
    (hmono : (clockTimes
      (pre ++ Call.loop t1 :: (mid ++ [Call.loop t3]))).Pairwise (· ≤ ·))
    (hhigh : (run (ctor led0 timer0) pre).led_.level = true)
    (hfall : (run (ctor led0 timer0) (pre ++ [Call.loop t1])).led_.level = false)
    (hlow : (run (ctor led0 timer0)
      (pre ++ Call.loop t1 :: mid)).led_.level = false)
    (hrise : (run (ctor led0 timer0)
      (pre ++ Call.loop t1 :: (mid ++ [Call.loop t3]))).led_.level = true) :
    t1 + 30 ≤ t3 ∧ t1 + 30 < t3 := by
  have hinv := run_keeps_led_iff pre (ctor led0 timer0)
    (by simp [ctor, enterIdleState, OutputPin.low])
  rw [run_append, run_cons, run_nil] at hfall
  rw [run_append, run_cons] at hlow
  rw [run_append, run_cons, run_append, run_cons, run_nil] at hrise
  simp only [step] at hfall hlow hrise
  obtain ⟨hoff, hstart⟩ := loop_fall_enters_off _ t1 hinv hhigh hfall
  have hle : ∀ t ∈ clockTimes mid, t ≤ t3 := by
    intro t ht
    rw [clockTimes_append] at hmono
    have h2 := (List.pairwise_append.mp hmono).2.1
    simp only [clockTimes] at h2
    rw [clockTimes_append] at h2
    have h3 := (List.pairwise_append.mp (List.pairwise_cons.mp h2).2).2.2
    exact h3 t ht t3 (by simp [clockTimes])
  rcases run_off_or_late mid _ hoff with ⟨hstill, _⟩ | ⟨t, ht, hlt⟩
  · have := loop_off_keeps_low _ t3 hstill hlow
    rw [this] at hrise
    exact absurd hrise (by decide)
  · have := hle t ht
    rw [hstart] at hlt
    omega

/-- C16 at a concrete input: a pulse started at clock 0 ends at clock 21; an
`action()` and polls at 30 and 52 follow, and the poll at 53 starts the next
pulse. -/
theorem refractory_period_witness :
    (run (ctor ⟨false, false⟩ ⟨0⟩) [Call.action, Call.loop 0]).led_.level = true ∧
    (run (ctor ⟨false, false⟩ ⟨0⟩)
      ([Call.action, Call.loop 0] ++ [Call.loop 21])).led_.level = false ∧
    (run (ctor ⟨false, false⟩ ⟨0⟩) ([Call.action, Call.loop 0] ++
      Call.loop 21 :: [Call.action, Call.loop 30, Call.loop 52])).led_.level = false ∧
    (run (ctor ⟨false, false⟩ ⟨0⟩) ([Call.action, Call.loop 0] ++
      Call.loop 21 :: ([Call.action, Call.loop 30, Call.loop 52] ++
        [Call.loop 53]))).led_.level = true ∧
    (21 + 30 ≤ 53 ∧ 21 + 30 < 53) :=
  ⟨by decide, by decide, by decide, by decide,
   refractory_period ⟨false, false⟩ ⟨0⟩ [Call.action, Call.loop 0]
    [Call.action, Call.loop 30, Call.loop 52] 21 53
    (by decide) (by decide) (by decide) (by decide) (by decide)⟩

/-- C17: a pending action always produces a pulse.  In every state reachable
from the constructed object with an action pending, three `loop()` calls in
succession, each passing the timer test of the state it finds (above 20 in
ACTIVE_ON, above 30 in ACTIVE_OFF), contain a call that enters ACTIVE_ON with
the output HIGH and clears the pending flag: the first call from IDLE, the
second from ACTIVE_OFF, the third from ACTIVE_ON; until then the flag stays
set. -/
theorem pending_action_gets_pulse (led0 : OutputPin) (timer0 : PassiveTimer)
    (cs : List Call) (t1 t2 t3 : Nat)
    (hp : (run (ctor led0 timer0) cs).pending_actions_ = true)
    (h1 : thresholdPassed (run (ctor led0 timer0) cs) t1 = true)
    (h2 : thresholdPassed ((run (ctor led0 timer0) cs).loop t1) t2 = true)
    (_h3 : thresholdPassed (((run (ctor led0 timer0) cs).loop t1).loop t2) t3 = true) :
    ((run (ctor led0 timer0) cs).state_ = kState_IDLE ∧
      ((run (ctor led0 timer0) cs).loop t1).state_ = kState_ACTIVE_ON ∧
      ((run (ctor led0 timer0) cs).loop t1).led_.level = true ∧
      ((run (ctor led0 timer0) cs).loop t1).pending_actions_ = false) ∨
    ((run (ctor led0 timer0) cs).state_ = kState_ACTIVE_OFF ∧
      ((run (ctor led0 timer0) cs).loop t1).state_ = kState_IDLE ∧
      ((run (ctor led0 timer0) cs).loop t1).pending_actions_ = true ∧
      (((run (ctor led0 timer0) cs).loop t1).loop t2).state_ = kState_ACTIVE_ON ∧
      (((run (ctor led0 timer0) cs).loop t1).loop t2).led_.level = true ∧
      (((run (ctor led0 timer0) cs).loop t1).loop t2).pending_actions_ = false) ∨
    ((run (ctor led0 timer0) cs).state_ = kState_ACTIVE_ON ∧
      ((run (ctor led0 timer0) cs).loop t1).state_ = kState_ACTIVE_OFF ∧
      (((run (ctor led0 timer0) cs).loop t1).loop t2).state_ = kState_IDLE ∧
      (((run (ctor led0 timer0) cs).loop t1).loop t2).pending_actions_ = true ∧
      ((((run (ctor led0 timer0) cs).loop t1).loop t2).loop t3).state_ = kState_ACTIVE_ON ∧
      ((((run (ctor led0 timer0) cs).loop t1).loop t2).loop t3).led_.level = true ∧
      ((((run (ctor led0 timer0) cs).loop t1).loop t2).loop t3).pending_actions_ = false) :=
  three_polls_start_pulse _ t1 t2 t3 (run_ctor_tag led0 timer0 cs) hp h1 h2

/-- C17 at a concrete input: a second `action()` arrives while the pulse
started at clock 0 is on; polls at 21, 52 and 52 follow, and the third one
starts the next pulse. -/
theorem pending_action_gets_pulse_witness :
    (run (ctor ⟨false, false⟩ ⟨0⟩)
      [Call.action, Call.loop 0, Call.action]).pending_actions_ = true ∧
    (run (ctor ⟨false, false⟩ ⟨0⟩) [Call.action, Call.loop 0, Call.action]).state_
      = kState_ACTIVE_ON ∧
    ((((run (ctor ⟨false, false⟩ ⟨0⟩)
      [Call.action, Call.loop 0, Call.action]).loop 21).loop 52).loop 52).state_
      = kState_ACTIVE_ON ∧
    ((((run (ctor ⟨false, false⟩ ⟨0⟩)
      [Call.action, Call.loop 0, Call.action]).loop 21).loop 52).loop 52).led_.level
      = true ∧
    ((((run (ctor ⟨false, false⟩ ⟨0⟩)
      [Call.action, Call.loop 0, Call.action]).loop 21).loop 52).loop 52).pending_actions_
      = false := by
  have h := pending_action_gets_pulse ⟨false, false⟩ ⟨0⟩
    [Call.action, Call.loop 0, Call.action] 21 52 52
    (by decide) (by decide) (by decide) (by decide)
  rcases h with h | h | h
  · exact absurd h.1 (by decide)
  · exact absurd h.1 (by decide)
  · exact ⟨by decide, h.1, h.2.2.2.2.1, h.2.2.2.2.2.1, h.2.2.2.2.2.2⟩

/-- C18: in ACTIVE_ON and in ACTIVE_OFF, at every clock reading, `action()`
and `loop()` commute: `action()` then `loop()` gives exactly the state that
`loop()` then `action()` gives.  In IDLE they do not: on the constructed
object `action()` then `loop()` ends in ACTIVE_ON with nothing pending, while
`loop()` then `action()` ends in IDLE with the action pending. -/
theorem action_loop_commute :
    (∀ (s : ActionLed) (now : Nat),
        s.state_ = kState_ACTIVE_ON ∨ s.state_ = kState_ACTIVE_OFF →
        s.action.loop now = (s.loop now).action) ∧
    (∀ (led0 : OutputPin) (timer0 : PassiveTimer) (now : Nat),
        (ctor led0 timer0).state_ = kState_IDLE ∧
        (ctor led0 timer0).action.loop now ≠ ((ctor led0 timer0).loop now).action ∧
        ((ctor led0 timer0).action.loop now).state_ = kState_ACTIVE_ON ∧
        ((ctor led0 timer0).action.loop now).pending_actions_ = false ∧
        (((ctor led0 timer0).loop now).action).state_ = kState_IDLE ∧
        (((ctor led0 timer0).loop now).action).pending_actions_ = true) := by
  refine ⟨?_, ?_⟩
  · intro s now hs
    rcases hs with hs | hs
    · by_cases ht : 20 < s.timer_.timeMillis now
      · rw [loop_on_of_gt s now hs ht, loop_on_of_gt s.action now hs ht]; rfl
      · rw [loop_on_of_le s now hs (Nat.le_of_not_lt ht),
          loop_on_of_le s.action now hs (Nat.le_of_not_lt ht)]
    · by_cases ht : 30 < s.timer_.timeMillis now
      · rw [loop_off_of_gt s now hs ht, loop_off_of_gt s.action now hs ht]; rfl
      · rw [loop_off_of_le s now hs (Nat.le_of_not_lt ht),
          loop_off_of_le s.action now hs (Nat.le_of_not_lt ht)]
  · intro led0 timer0 now
    have ha : (ctor led0 timer0).action.loop now =
        { enterActiveOnState (ctor led0 timer0).action now with pending_actions_ := false } :=
      loop_idle_of_pending _ now rfl rfl
    have hl : (ctor led0 timer0).loop now = ctor led0 timer0 :=
      loop_idle_of_not_pending _ now rfl rfl
    rw [ha, hl]
    refine ⟨rfl, ?_, rfl, rfl, rfl, rfl⟩
    intro h
    have := congrArg ActionLed.pending_actions_ h
    exact Bool.false_ne_true this

/-- C18 at concrete inputs: in ACTIVE_ON past the threshold and in ACTIVE_OFF
below it the two orders agree. -/
theorem action_loop_commute_witness :
    (ActionLed.mk kState_ACTIVE_ON ⟨true, true⟩ ⟨0⟩ false).action.loop 21
        = ((ActionLed.mk kState_ACTIVE_ON ⟨true, true⟩ ⟨0⟩ false).loop 21).action ∧
    (ActionLed.mk kState_ACTIVE_OFF ⟨true, false⟩ ⟨21⟩ false).action.loop 40
        = ((ActionLed.mk kState_ACTIVE_OFF ⟨true, false⟩ ⟨21⟩ false).loop 40).action :=
  ⟨action_loop_commute.1 (ActionLed.mk kState_ACTIVE_ON ⟨true, true⟩ ⟨0⟩ false) 21
      (Or.inl rfl),
   action_loop_commute.1 (ActionLed.mk kState_ACTIVE_OFF ⟨true, false⟩ ⟨21⟩ false) 40
      (Or.inr rfl)⟩

end ActionLed
